import Mathlib

set_option maxRecDepth 20000

/-!
Shallow embedding of the insurance-claim demo notebook
(src/insurance_demo.ipynb) of box-community/box-openai-insurance-claim-demo.

The notebook wires Box storage and the OpenAI Agents SDK into a fixed
claim-processing pipeline: a guardrail check, three specialist agents
(Image Analyst, Cost Estimator, Repair Shop Finder) chained by hand-offs,
an orchestrator that merges their outputs with the raw claim dict into one
InsuranceReport, a driver that enforces the final-output contract and a
Doc Gen submission step.

Pure local computations (the Pydantic data model, the guardrail tripwire
formula, the hand-off lists, the report-date fix-up, the vision prompt and
its declared JSON schema, the customer-file field mapping, and the Doc Gen
serialization and flattening) are translated directly from the notebook
cells. The external LLM calls and the Agents SDK runner are not code of
this repository; where a claim depends on them, the corresponding
definitions are marked as modelled from the spec, take the external model
outputs as explicit inputs, and make the possible behaviours (hand-off
performed or chain interrupted) explicit.
-/

namespace InsuranceDemo

/-! ## Python string helpers (semantics of str.strip and str.join) -/

/-- Whitespace characters removed by the Python str.strip() call used in the
report-date fix-up (ASCII whitespace: space, tab, newline, carriage return,
vertical tab, form feed). -/
def pyIsSpace (c : Char) : Bool :=
  c = ' ' || c = '\t' || c = '\n' || c = '\r' || c = '\x0b' || c = '\x0c'

/-- Python str.strip() with no arguments: drop leading and trailing
whitespace. -/
def pyStrip (s : String) : String :=
  String.mk (((s.data.dropWhile pyIsSpace).reverse.dropWhile pyIsSpace).reverse)

/-! ## Data model (Pydantic models of the notebook, cell 6) -/

/-- Pydantic model InsuranceGuardrailOutput. -/
structure InsuranceGuardrailOutput where
  is_insurance_related : Bool
  reasoning : String
deriving Repr, DecidableEq

/-- Pydantic model DamageInfo: the Image Analyst output shape. -/
structure DamageInfo where
  damage_description : String
  damaged_parts_list : List String
deriving Repr, DecidableEq

/-- Pydantic model EstimatedCost: the Cost Estimator output shape. -/
structure EstimatedCost where
  estimated_cost : String
deriving Repr, DecidableEq

/-- Pydantic model Claim. Field order and optionality follow the source:
the three damage-related fields and the other-driver and law-enforcement
fields are Optional with default None. -/
structure Claim where
  report_date : String
  assigned_adjuster : String
  other_driver_insurance_company : Option String := none
  other_driver_policy_number : Option String := none
  cross_streets_of_accident : String
  date_of_incident : String
  time_of_incident : String
  number_of_vehicles_involved : String
  customer_initial_report : String
  law_enforcement_agency : Option String := none
  law_enforcement_report_id : Option String := none
  damage_description : Option String := none
  estimated_cost : Option String := none
  damaged_parts_list : Option (List String) := none
deriving Repr, DecidableEq

/-- Pydantic model Customer: sixteen required string fields. -/
structure Customer where
  first_name : String
  last_name : String
  street_address : String
  city : String
  state : String
  zip_code : String
  phone_number : String
  email : String
  car_year : String
  car_make : String
  car_model : String
  vin : String
  license_plate : String
  car_mileage : String
  car_color : String
  policy_number : String
deriving Repr, DecidableEq

/-- Pydantic model Shop. -/
structure Shop where
  shop_name : String
  shop_address : String
  shop_phone : String
deriving Repr, DecidableEq

/-- Pydantic model Shops: three independently optional shop slots. -/
structure Shops where
  shop_one : Option Shop := none
  shop_two : Option Shop := none
  shop_three : Option Shop := none
deriving Repr, DecidableEq

/-- Pydantic model InsuranceReport: the terminal aggregate of the run. -/
structure InsuranceReport where
  claim_number : String
  claim : Claim
  customer : Customer
  shops : Shops
deriving Repr, DecidableEq

/-! ## Guardrail (cell 14) -/

/-- The value returned by the input guardrail, as in the Agents SDK. -/
structure GuardrailFunctionOutput where
  output_info : InsuranceGuardrailOutput
  tripwire_triggered : Bool
deriving Repr, DecidableEq

/-- insurance_query_guardrail from cell 14. The guardrail agent itself is an
external LLM call; its verdict is taken as input. The tripwire is triggered
exactly when the verdict is not insurance related, mirroring
tripwire_triggered = not final_output.is_insurance_related in the source. -/
def insurance_query_guardrail (verdict : InsuranceGuardrailOutput) :
    GuardrailFunctionOutput :=
  { output_info := verdict
    tripwire_triggered := !verdict.is_insurance_related }

/-! ## Agents and the hand-off graph (cell 16) -/

/-- The four agents constructed in cell 16. -/
inductive AgentName where
  | claim_orchestrator
  | image_analysis_agent
  | cost_estimation_agent
  | repair_shop_agent
deriving Repr, DecidableEq

/-- The hand-off lists declared in cell 16, including the post-construction
assignment repair_shop_agent.handoffs = [claim_orchestrator]. -/
def handoffs : AgentName → List AgentName
  | .claim_orchestrator => [.image_analysis_agent]
  | .image_analysis_agent => [.cost_estimation_agent]
  | .cost_estimation_agent => [.repair_shop_agent]
  | .repair_shop_agent => [.claim_orchestrator]

/-! ## Pipeline run model -/

/-- Modelled from the spec: the per-run accumulation of the three specialist
outputs that the orchestrator must hold before merging (spec section 4.4).
Each field is filled exactly when the corresponding stage has completed. -/
structure PipelineState where
  damage : Option DamageInfo := none
  cost : Option EstimatedCost := none
  shops : Option Shops := none
deriving Repr, DecidableEq

/-- The externally supplied raw claim data: the claim number, the claim
fields read from the customer info file, and the parsed customer record.
This is the raw_json context handed to the orchestrator by the driver. -/
structure RawClaimData where
  claim_number : String
  base_claim : Claim
  customer : Customer
deriving Repr, DecidableEq

/-- Modelled from the spec: the orchestrator MERGE step (cell 16
instructions: merge DamageInfo, EstimatedCost, Shops and raw_json into ONE
InsuranceReport). The merge is performed by the LLM orchestrator, not by
repository code; it is modelled as the aggregate constructor that requires
all four sources as arguments and copies each specialist output into the
claim fields reserved for it. -/
def merge_report (raw : RawClaimData) (d : DamageInfo) (c : EstimatedCost)
    (s : Shops) : InsuranceReport :=
  { claim_number := raw.claim_number
    claim := { raw.base_claim with
                damage_description := some d.damage_description
                estimated_cost := some c.estimated_cost
                damaged_parts_list := some d.damaged_parts_list }
    customer := raw.customer
    shops := s }

/-- Modelled from the spec: the merge guard. MERGE may produce an
InsuranceReport only from a pipeline state in which all three specialist
outputs are present; otherwise the run fails with a MissingDependency
error instead of emitting a partially populated report. -/
def merge_if_complete (raw : RawClaimData) (st : PipelineState) :
    Except String InsuranceReport :=
  match st.damage, st.cost, st.shops with
  | some d, some c, some s => .ok (merge_report raw d c s)
  | _, _, _ => .error "MissingDependency: merge requires all three specialist outputs"

/-- Modelled from the spec: one possible behaviour of the LLM-backed agents
in a single run. The guardrail verdict and the three specialist outputs are
the results of the external model calls; each Boolean says whether the
corresponding specialist performs its instructed hand-off or instead ends
the run early with its own typed output (an interrupted chain). -/
structure AgentBehaviour where
  verdict : InsuranceGuardrailOutput
  damage : DamageInfo
  cost : EstimatedCost
  shops : Shops
  image_hands_off : Bool
  cost_hands_off : Bool
  shop_hands_off : Bool
deriving Repr, DecidableEq

/-- Observable events of one run: the guardrail evaluation, each specialist
agent invocation, the external tool calls inside the specialists (the
vision tool of the Image Analyst and the web search of the Repair Shop
Finder), and the execution of the MERGE step. -/
inductive Ev where
  | guardrail_checked
  | agent_invoked (a : AgentName)
  | vision_tool_called
  | web_search_called
  | merge_executed
deriving Repr, DecidableEq

/-- The final output of a run of the Agents SDK runner: each agent declares
an output type, so an interrupted chain ends with the typed output of the
agent that stopped, and a completed chain ends with the orchestrator
InsuranceReport. -/
inductive FinalOutput where
  | damage_info (d : DamageInfo)
  | estimated_cost (c : EstimatedCost)
  | shops_output (s : Shops)
  | report (r : InsuranceReport)
deriving Repr, DecidableEq

/-- Outcome of one orchestrated run: rejected by the guardrail tripwire,
completed with some final output, or failed at the merge guard. -/
inductive RunOutcome where
  | rejected (g : GuardrailFunctionOutput)
  | completed (f : FinalOutput)
  | merge_failed (e : String)
deriving Repr, DecidableEq

/-- Modelled from the spec: the orchestrated pipeline over the hand-off
chain of cell 16. The guardrail is evaluated first; if its tripwire fires
the run is rejected before any specialist is invoked. Otherwise the
specialists run in hand-off order, each either handing off to the next
agent in its handoffs list or ending the run with its own typed output;
when control returns to the orchestrator the merge guard runs. The result
is the event trace together with the run outcome. -/
def run_pipeline (b : AgentBehaviour) (raw : RawClaimData) :
    List Ev × RunOutcome :=
  let g := insurance_query_guardrail b.verdict
  if g.tripwire_triggered then
    ([.guardrail_checked], .rejected g)
  else
    let trace1 : List Ev :=
      [.guardrail_checked, .agent_invoked .image_analysis_agent, .vision_tool_called]
    let st1 : PipelineState := { damage := some b.damage }
    if b.image_hands_off then
      let trace2 := trace1 ++ [.agent_invoked .cost_estimation_agent]
      let st2 := { st1 with cost := some b.cost }
      if b.cost_hands_off then
        let trace3 := trace2 ++ [.agent_invoked .repair_shop_agent, .web_search_called]
        let st3 := { st2 with shops := some b.shops }
        if b.shop_hands_off then
          match merge_if_complete raw st3 with
          | .ok r => (trace3 ++ [.merge_executed], .completed (.report r))
          | .error e => (trace3, .merge_failed e)
        else (trace3, .completed (.shops_output b.shops))
      else (trace2, .completed (.estimated_cost b.cost))
    else (trace1, .completed (.damage_info b.damage))

/-- The full event trace of an uninterrupted in-domain run. Every trace
produced by run_pipeline is a left-to-right portion of this sequence. -/
def canonical_trace : List Ev :=
  [.guardrail_checked, .agent_invoked .image_analysis_agent, .vision_tool_called,
   .agent_invoked .cost_estimation_agent, .agent_invoked .repair_shop_agent,
   .web_search_called, .merge_executed]

/-! ## Claim pipeline driver (cell 18) -/

/-- A calendar date, standing for the value of datetime.date.today(), which
is external real time and therefore an input of the embedding. -/
structure PyDate where
  year : Nat
  month : Nat
  day : Nat
deriving Repr, DecidableEq

/-- Left-pad a decimal rendering with zeros to the given width. -/
def padZeros (width : Nat) (n : Nat) : String :=
  let digits := toString n
  String.mk (List.replicate (width - digits.length) '0') ++ digits

/-- Python datetime.date.isoformat(): the YYYY-MM-DD rendering used as the
default report date in cell 18. -/
def date_isoformat (d : PyDate) : String :=
  padZeros 4 d.year ++ "-" ++ padZeros 2 d.month ++ "-" ++ padZeros 2 d.day

/-- The blank test of cell 18: not report_date or not report_date.strip().
True exactly when the string is empty or whitespace-only. -/
def report_date_blank (s : String) : Bool :=
  s = "" || pyStrip s = ""

/-- The post-merge fix-up of cell 18: if the report date is blank it is set
to the ISO rendering of the current date, otherwise the report is returned
unchanged. No other field is touched. -/
def fix_report_date (today_iso : String) (r : InsuranceReport) : InsuranceReport :=
  if report_date_blank r.claim.report_date then
    { r with claim := { r.claim with report_date := today_iso } }
  else r

/-- The strict final-output contract of cell 18: result.final_output_as
followed by assert isinstance(report, InsuranceReport), inside a try block
that logs and re-raises. A rejected run surfaces as the guardrail tripwire
exception of the runner, and any completed run whose final output is not an
InsuranceReport is an error; only a genuine InsuranceReport is returned. -/
def require_insurance_report : RunOutcome → Except String InsuranceReport
  | .completed (.report r) => .ok r
  | .completed (.damage_info _) =>
      .error "Orchestrator failed to return a valid InsuranceReport: DamageInfo"
  | .completed (.estimated_cost _) =>
      .error "Orchestrator failed to return a valid InsuranceReport: EstimatedCost"
  | .completed (.shops_output _) =>
      .error "Orchestrator failed to return a valid InsuranceReport: Shops"
  | .rejected _ => .error "InputGuardrailTripwireTriggered"
  | .merge_failed e => .error e

/-- process_insurance_claim from cell 18: run the orchestrator, strictly
require an InsuranceReport, then apply the report-date fix-up with the
current date. Errors propagate; no other shape is ever returned. -/
def process_insurance_claim (b : AgentBehaviour) (raw : RawClaimData)
    (today : PyDate) : Except String InsuranceReport :=
  match require_insurance_report (run_pipeline b raw).2 with
  | .ok report => .ok (fix_report_date (date_isoformat today) report)
  | .error e => .error e

/-! ## JSON values (for service responses, files and serialization) -/

/-- JSON values as needed by this notebook: null, strings, arrays and
objects. Every leaf the notebook serializes is a string. -/
inductive Json where
  | null
  | str (s : String)
  | arr (elems : List Json)
  | obj (fields : List (String × Json))
deriving Repr

/-- Key lookup in a JSON object field list (first match wins, as in a
Python dict whose keys are unique). -/
def lookupField (fields : List (String × Json)) (k : String) : Option Json :=
  match fields with
  | [] => none
  | (k1, v) :: rest => if k1 == k then some v else lookupField rest k

/-- Whether a JSON value is an object containing the given key. -/
def jsonHasKey (j : Json) (k : String) : Bool :=
  match j with
  | .obj fields => (lookupField fields k).isSome
  | _ => false

/-- Python dict item assignment d[k] = v: replace the value at an existing
key in place, or append a new key. -/
def setField (fields : List (String × Json)) (k : String) (v : Json) :
    List (String × Json) :=
  match fields with
  | [] => [(k, v)]
  | (k1, v1) :: rest =>
    if k1 == k then (k, v) :: rest else (k1, v1) :: setField rest k v

/-- Two-level lookup: field k2 of the object stored at field k1. -/
def jsonLookupPath (j : Json) (k1 k2 : String) : Option Json :=
  match j with
  | .obj fields =>
    match lookupField fields k1 with
    | some (.obj inner) => lookupField inner k2
    | _ => none
  | _ => none

/-- Items of a Python iterable being joined: every element must be a
string, otherwise str.join raises a TypeError. -/
def strItems : List Json → Except String (List String)
  | [] => .ok []
  | .str s :: rest =>
    match strItems rest with
    | .ok tail => .ok (s :: tail)
    | .error e => .error e
  | _ :: _ => .error "TypeError: sequence item: expected str instance"

/-- Python sep.join(x): joins an iterable of strings; a string argument is
iterated character by character; any non-iterable argument, None included,
raises a TypeError. -/
def pyJoin (sep : String) : Json → Except String String
  | .arr elems =>
    match strItems elems with
    | .ok strs => .ok (String.intercalate sep strs)
    | .error e => .error e
  | .str s => .ok (String.intercalate sep (s.data.map String.singleton))
  | _ => .error "TypeError: can only join an iterable"

/-! ## Vision damage tool (cell 14) -/

/-- The prompt text built by analyze_vehicle_damage_gpt4v in cell 14. The
adjacent f-string literals of the source concatenate into this text around
the three interpolated vehicle fields. -/
def vision_prompt_text (year make model : String) : String :=
  "Think deeply. Based on these images, create a list of parts that you estimate will need repaired or replaced, as well as a detailed description of the damage to the vehicle. Make sure to think about and include hidden damage that you might not be able to see in the photos, for example camera in the bumper or the batteries the vehicle uses. The vehicle is a "
    ++ year ++ " " ++ make ++ " " ++ model
    ++ ". Return a valid JSON object that includes the following:\n - \"damage_description\": a concise summary describing the overall damage to the vehicle.\n - \"damaged_parts_list\": a list of parts that need repair or replacement.\nDo NOT include any cost estimates, extra explanations, or any text outside of this JSON object. Follow proper JSON formatting."

/-- The request analyze_vehicle_damage_gpt4v issues to the vision service:
the prompt, the image URLs, and the declared strict JSON schema (both
properties required, additionalProperties false, strict true). -/
structure VisionRequest where
  prompt : String
  image_urls : List String
  schema_required : List String
  additionalProperties : Bool
  strict : Bool
deriving Repr, DecidableEq

/-- The vision request built in cell 14 for given images and vehicle. -/
def vision_request (image_urls : List String) (year make model : String) :
    VisionRequest :=
  { prompt := vision_prompt_text year make model
    image_urls := image_urls
    schema_required := ["damage_description", "damaged_parts_list"]
    additionalProperties := false
    strict := true }

/-- Decode a vision-service response against the JSON schema declared in
cell 14: an object whose properties are exactly damage_description (a
string) and damaged_parts_list (an array of strings), both required and
with additionalProperties false. Under the strict structured-output format
a response that does not conform is an error of the call, never a
DamageInfo value. -/
def parse_damage_info (j : Json) : Except String DamageInfo :=
  match j with
  | .obj fields =>
    if fields.all (fun kv => kv.1 == "damage_description" || kv.1 == "damaged_parts_list") then
      match lookupField fields "damaged_parts_list" with
      | some (.arr parts) =>
        match strItems parts with
        | .ok l =>
          match lookupField fields "damage_description" with
          | some (.str desc) => .ok { damage_description := desc, damaged_parts_list := l }
          | _ => .error "SchemaViolation: required property damage_description missing or not a string"
        | .error _ => .error "SchemaViolation: damaged_parts_list items must be strings"
      | _ => .error "SchemaViolation: required property damaged_parts_list missing or not an array"
    else .error "SchemaViolation: additional properties are not permitted"
  | _ => .error "SchemaViolation: response is not a JSON object"

/-- Whether a JSON value is a string. -/
def isStrJson : Json → Bool
  | .str _ => true
  | _ => false

/-- Conformance to the DamageInfo shape declared by the schema in cell 14:
an object with no properties besides damage_description and
damaged_parts_list, whose damage_description is a string and whose
damaged_parts_list is an array of strings, both required. A dict produced
by json.loads has unique keys; lookups take the first occurrence. -/
def conforms_damage_schema : Json → Bool
  | .obj fields =>
    (fields.all fun kv =>
      kv.1 == "damage_description" || kv.1 == "damaged_parts_list") &&
    (match lookupField fields "damage_description" with
     | some (.str _) => true
     | _ => false) &&
    (match lookupField fields "damaged_parts_list" with
     | some (.arr elems) => elems.all isStrJson
     | _ => false)
  | _ => false

/-- analyze_vehicle_damage_gpt4v from cell 14: builds the vision request
(prompt plus strict schema) and decodes the service response against the
declared schema. The external model call itself is represented by taking
the service response as an input. -/
def analyze_vehicle_damage_gpt4v (image_urls : List String)
    (year make model : String) (service_output : Json) :
    VisionRequest × Except String DamageInfo :=
  (vision_request image_urls year make model, parse_damage_info service_output)

/-! ## Customer info file (cell 18) -/

/-- The sixteen field names mapped from customer_* keys in
parse_customer_info_file. -/
def customer_field_names : List String :=
  ["first_name", "last_name", "street_address", "city", "state",
   "zip_code", "phone_number", "email", "car_year", "car_make",
   "car_model", "vin", "license_plate", "car_mileage", "car_color",
   "policy_number"]

/-- Fetch raw[k] as a string: a missing key is a KeyError (the dict
subscript in the comprehension) and a non-string value is a validation
error of the Customer model. -/
def getStrField (fields : List (String × Json)) (k : String) :
    Except String String :=
  match lookupField fields k with
  | some (.str s) => .ok s
  | some _ => .error ("ValidationError: " ++ k ++ " must be a string")
  | none => .error ("KeyError: " ++ k)

/-- parse_customer_info_file from cell 18: map each customer_* key of the
raw JSON dict to the Customer field of the same name and return the
Customer together with the raw dict unchanged. -/
def parse_customer_info_file (raw : Json) : Except String (Customer × Json) :=
  match raw with
  | .obj fields =>
    match getStrField fields "customer_first_name" with
    | .error e => .error e
    | .ok first_name =>
    match getStrField fields "customer_last_name" with
    | .error e => .error e
    | .ok last_name =>
    match getStrField fields "customer_street_address" with
    | .error e => .error e
    | .ok street_address =>
    match getStrField fields "customer_city" with
    | .error e => .error e
    | .ok city =>
    match getStrField fields "customer_state" with
    | .error e => .error e
    | .ok state =>
    match getStrField fields "customer_zip_code" with
    | .error e => .error e
    | .ok zip_code =>
    match getStrField fields "customer_phone_number" with
    | .error e => .error e
    | .ok phone_number =>
    match getStrField fields "customer_email" with
    | .error e => .error e
    | .ok email =>
    match getStrField fields "customer_car_year" with
    | .error e => .error e
    | .ok car_year =>
    match getStrField fields "customer_car_make" with
    | .error e => .error e
    | .ok car_make =>
    match getStrField fields "customer_car_model" with
    | .error e => .error e
    | .ok car_model =>
    match getStrField fields "customer_vin" with
    | .error e => .error e
    | .ok vin =>
    match getStrField fields "customer_license_plate" with
    | .error e => .error e
    | .ok license_plate =>
    match getStrField fields "customer_car_mileage" with
    | .error e => .error e
    | .ok car_mileage =>
    match getStrField fields "customer_car_color" with
    | .error e => .error e
    | .ok car_color =>
    match getStrField fields "customer_policy_number" with
    | .error e => .error e
    | .ok policy_number =>
      .ok ({ first_name := first_name, last_name := last_name
             street_address := street_address, city := city, state := state
             zip_code := zip_code, phone_number := phone_number, email := email
             car_year := car_year, car_make := car_make, car_model := car_model
             vin := vin, license_plate := license_plate
             car_mileage := car_mileage, car_color := car_color
             policy_number := policy_number }, raw)
  | _ => .error "TypeError: customer info must be a JSON object"

/-! ## Doc Gen submission (cell 20) -/

/-- Serialization of an optional string field under model_dump in JSON
mode: None becomes null. -/
def dumpOptStr : Option String → Json
  | none => .null
  | some s => .str s

/-- model_dump of the Claim model in JSON mode, in declaration order. The
damaged_parts_list field serializes to null when None and to an array of
strings otherwise. -/
def Claim.model_dump (c : Claim) : Json :=
  .obj [
    ("report_date", .str c.report_date),
    ("assigned_adjuster", .str c.assigned_adjuster),
    ("other_driver_insurance_company", dumpOptStr c.other_driver_insurance_company),
    ("other_driver_policy_number", dumpOptStr c.other_driver_policy_number),
    ("cross_streets_of_accident", .str c.cross_streets_of_accident),
    ("date_of_incident", .str c.date_of_incident),
    ("time_of_incident", .str c.time_of_incident),
    ("number_of_vehicles_involved", .str c.number_of_vehicles_involved),
    ("customer_initial_report", .str c.customer_initial_report),
    ("law_enforcement_agency", dumpOptStr c.law_enforcement_agency),
    ("law_enforcement_report_id", dumpOptStr c.law_enforcement_report_id),
    ("damage_description", dumpOptStr c.damage_description),
    ("estimated_cost", dumpOptStr c.estimated_cost),
    ("damaged_parts_list",
      match c.damaged_parts_list with
      | none => .null
      | some l => .arr (l.map .str))]

/-- model_dump of the Customer model in JSON mode. -/
def Customer.model_dump (c : Customer) : Json :=
  .obj [
    ("first_name", .str c.first_name),
    ("last_name", .str c.last_name),
    ("street_address", .str c.street_address),
    ("city", .str c.city),
    ("state", .str c.state),
    ("zip_code", .str c.zip_code),
    ("phone_number", .str c.phone_number),
    ("email", .str c.email),
    ("car_year", .str c.car_year),
    ("car_make", .str c.car_make),
    ("car_model", .str c.car_model),
    ("vin", .str c.vin),
    ("license_plate", .str c.license_plate),
    ("car_mileage", .str c.car_mileage),
    ("car_color", .str c.car_color),
    ("policy_number", .str c.policy_number)]

/-- model_dump of the Shop model in JSON mode. -/
def Shop.model_dump (s : Shop) : Json :=
  .obj [
    ("shop_name", .str s.shop_name),
    ("shop_address", .str s.shop_address),
    ("shop_phone", .str s.shop_phone)]

/-- Serialization of an optional shop slot: None becomes null. -/
def dumpOptShop : Option Shop → Json
  | none => .null
  | some s => Shop.model_dump s

/-- model_dump of the Shops model in JSON mode. -/
def Shops.model_dump (s : Shops) : Json :=
  .obj [
    ("shop_one", dumpOptShop s.shop_one),
    ("shop_two", dumpOptShop s.shop_two),
    ("shop_three", dumpOptShop s.shop_three)]

/-- final_report.model_dump(mode="json") from cell 20. -/
def InsuranceReport.model_dump (r : InsuranceReport) : Json :=
  .obj [
    ("claim_number", .str r.claim_number),
    ("claim", Claim.model_dump r.claim),
    ("customer", Customer.model_dump r.customer),
    ("shops", Shops.model_dump r.shops)]

/-- The flattening lines of cell 20:
parts_list = docgen_user_input["claim"].get("damaged_parts_list", []) and
docgen_user_input["claim"]["damaged_parts_list"] = ", ".join(parts_list).
The dict get default applies only when the key is absent; a present null
value reaches the join, which then raises a TypeError. -/
def flatten_damaged_parts : Json → Except String Json
  | .obj topFields =>
    match lookupField topFields "claim" with
    | some (.obj claimFields) =>
      let parts_list := (lookupField claimFields "damaged_parts_list").getD (.arr [])
      match pyJoin ", " parts_list with
      | .ok joined =>
        .ok (.obj (setField topFields "claim"
              (.obj (setField claimFields "damaged_parts_list" (.str joined)))))
      | .error e => .error e
    | some _ => .error "TypeError: claim entry is not a dict"
    | none => .error "KeyError: claim"
  | _ => .error "TypeError: docgen input is not a dict"

/-- The Doc Gen batch request built in cell 20: template file reference,
api input source, destination folder, pdf output flag, generated file name
and the flattened serialized report. -/
structure DocGenBatchRequest where
  file_id : String
  input_source : String
  destination_folder_id : String
  output_type : String
  generated_file_name : String
  user_input : Json
deriving Repr

/-- Step 7 of the notebook (cell 20): serialize the final report, flatten
the damaged parts list, and submit the Doc Gen batch. A TypeError in the
flattening stops the cell before any batch is created. -/
def submit_docgen_batch (template_file_id claim_folder_id : String)
    (final_report : InsuranceReport) : Except String DocGenBatchRequest :=
  match flatten_damaged_parts (InsuranceReport.model_dump final_report) with
  | .ok docgen_user_input =>
    .ok { file_id := template_file_id
          input_source := "api"
          destination_folder_id := claim_folder_id
          output_type := "pdf"
          generated_file_name := "Pre‑Inspection‑Report‑" ++ final_report.claim_number
          user_input := docgen_user_input }
  | .error e => .error e

/-! ## Sample values used by the evaluation witnesses -/

/-- A concrete damage assessment. -/
def sampleDamage : DamageInfo :=
  { damage_description := "dented rear bumper and cracked tail light"
    damaged_parts_list := ["rear bumper", "backup camera"] }

/-- A concrete cost estimate. -/
def sampleCost : EstimatedCost := { estimated_cost := "$1,000 - $2,500" }

/-- A concrete repair shop. -/
def sampleShop : Shop :=
  { shop_name := "A1 Auto Body", shop_address := "1 Main St, Springfield, IL"
    shop_phone := "555-0100" }

/-- A concrete shop set with one filled slot. -/
def sampleShops : Shops := { shop_one := some sampleShop }

/-- A concrete claim record with a blank report date. -/
def sampleClaim : Claim :=
  { report_date := ""
    assigned_adjuster := "Alex Smith"
    cross_streets_of_accident := "1st and Main"
    date_of_incident := "2025-04-20"
    time_of_incident := "10:00"
    number_of_vehicles_involved := "2"
    customer_initial_report := "rear ended at a stop light" }

/-- A concrete customer record. -/
def sampleCustomer : Customer :=
  { first_name := "Pat", last_name := "Doe"
    street_address := "123 Main St", city := "Springfield", state := "IL"
    zip_code := "62704", phone_number := "555-0101"
    email := "pat@example.com", car_year := "2023", car_make := "Honda"
    car_model := "Civic", vin := "1HGFE2F52PH000001"
    license_plate := "ABC123", car_mileage := "12000", car_color := "blue"
    policy_number := "P-000123" }

/-- Concrete raw claim data. -/
def sampleRaw : RawClaimData :=
  { claim_number := "G8947892834455"
    base_claim := sampleClaim
    customer := sampleCustomer }

/-- A behaviour in which every agent follows its instructions. -/
def sampleBehaviour : AgentBehaviour :=
  { verdict := { is_insurance_related := true, reasoning := "car crash claim" }
    damage := sampleDamage
    cost := sampleCost
    shops := sampleShops
    image_hands_off := true
    cost_hands_off := true
    shop_hands_off := true }

/-- A concrete run date. -/
def sampleDate : PyDate := { year := 2025, month := 4, day := 21 }

/-- A concrete customer info file content with all sixteen customer_* keys. -/
def sampleCustomerFields : List (String × Json) :=
  [("customer_first_name", .str "Pat"),
   ("customer_last_name", .str "Doe"),
   ("customer_street_address", .str "123 Main St"),
   ("customer_city", .str "Springfield"),
   ("customer_state", .str "IL"),
   ("customer_zip_code", .str "62704"),
   ("customer_phone_number", .str "555-0101"),
   ("customer_email", .str "pat@example.com"),
   ("customer_car_year", .str "2023"),
   ("customer_car_make", .str "Honda"),
   ("customer_car_model", .str "Civic"),
   ("customer_vin", .str "1HGFE2F52PH000001"),
   ("customer_license_plate", .str "ABC123"),
   ("customer_car_mileage", .str "12000"),
   ("customer_car_color", .str "blue"),
   ("customer_policy_number", .str "P-000123")]

/-- A concrete final report whose damaged parts list is None. -/
def sampleReportNoParts : InsuranceReport :=
  { claim_number := "G8947892834455"
    claim := sampleClaim
    customer := sampleCustomer
    shops := sampleShops }

/-! ## Helper lemmas -/

/-- Joining a serialized string list recovers the strings. -/
theorem strItems_map_str (l : List String) : strItems (l.map Json.str) = .ok l := by
  induction l with
  | nil => rfl
  | cons x xs ih => simp [strItems, ih]

/-- Python join over a serialized string list is the intercalation. -/
theorem pyJoin_map_str (sep : String) (l : List String) :
    pyJoin sep (Json.arr (l.map Json.str)) = .ok (String.intercalate sep l) := by
  simp [pyJoin, strItems_map_str]

/-- str.join succeeds on a list of JSON values exactly when every item is
a string. -/
theorem strItems_ok_iff (elems : List Json) :
    (∃ l, strItems elems = .ok l) ↔ elems.all isStrJson = true := by
  induction elems with
  | nil => simp [strItems, isStrJson]
  | cons x rest ih =>
    cases x with
    | str s =>
      cases hrest : strItems rest with
      | ok tail =>
        rw [hrest] at ih
        have hall : rest.all isStrJson = true := ih.mp ⟨tail, rfl⟩
        rw [List.all_cons, hall]
        simp [strItems, hrest, isStrJson]
      | error e =>
        rw [hrest] at ih
        have hall : rest.all isStrJson = false := by
          cases hv : rest.all isStrJson
          · rfl
          · obtain ⟨l, hl⟩ := ih.mpr hv
            cases hl
        rw [List.all_cons, hall]
        simp [strItems, hrest]
    | null => simp [strItems, isStrJson]
    | arr es => simp [strItems, isStrJson]
    | obj fs => simp [strItems, isStrJson]

/-- The schema decode of a vision-service response succeeds exactly on
responses conforming to the declared DamageInfo shape. -/
theorem parse_damage_info_ok_iff (j : Json) :
    (∃ d, parse_damage_info j = .ok d) ↔ conforms_damage_schema j = true := by
  cases j with
  | null => simp [parse_damage_info, conforms_damage_schema]
  | str s => simp [parse_damage_info, conforms_damage_schema]
  | arr es => simp [parse_damage_info, conforms_damage_schema]
  | obj fields =>
    by_cases hall :
        (fields.all fun kv =>
          kv.1 == "damage_description" || kv.1 == "damaged_parts_list") = true
    · rcases hdpl : lookupField fields "damaged_parts_list" with _ | v
      · simp [parse_damage_info, conforms_damage_schema, hall, hdpl]
      · cases v with
        | arr parts =>
          cases hitems : strItems parts with
          | ok l =>
            have h2 : parts.all isStrJson = true :=
              (strItems_ok_iff parts).mp ⟨l, hitems⟩
            rcases hdd : lookupField fields "damage_description" with _ | w
            · simp [parse_damage_info, conforms_damage_schema,
                hall, hdpl, hitems, h2, hdd]
            · cases w <;>
                simp [parse_damage_info, conforms_damage_schema,
                  hall, hdpl, hitems, h2, hdd]
          | error e =>
            have h2 := strItems_ok_iff parts
            rw [hitems] at h2
            simp at h2
            simp [parse_damage_info, conforms_damage_schema,
              hall, hdpl, hitems, h2]
        | null => simp [parse_damage_info, conforms_damage_schema, hall, hdpl]
        | str s => simp [parse_damage_info, conforms_damage_schema, hall, hdpl]
        | obj o => simp [parse_damage_info, conforms_damage_schema, hall, hdpl]
    · simp [parse_damage_info, conforms_damage_schema, hall]

/-- The merge guard succeeds on a full pipeline state. -/
theorem merge_if_complete_full (raw : RawClaimData) (d : DamageInfo)
    (c : EstimatedCost) (s : Shops) :
    merge_if_complete raw { damage := some d, cost := some c, shops := some s } =
      .ok (merge_report raw d c s) := rfl

/-- Evaluation of run_pipeline when the guardrail tripwire fires. -/
theorem run_pipeline_tripwire (b : AgentBehaviour) (raw : RawClaimData)
    (h : b.verdict.is_insurance_related = false) :
    run_pipeline b raw =
      ([.guardrail_checked], .rejected (insurance_query_guardrail b.verdict)) := by
  unfold run_pipeline
  simp [insurance_query_guardrail, h]

/-- Evaluation of run_pipeline when the Image Analyst ends the run early. -/
theorem run_pipeline_stop_image (b : AgentBehaviour) (raw : RawClaimData)
    (hg : b.verdict.is_insurance_related = true) (h1 : b.image_hands_off = false) :
    run_pipeline b raw =
      ([.guardrail_checked, .agent_invoked .image_analysis_agent, .vision_tool_called],
       .completed (.damage_info b.damage)) := by
  unfold run_pipeline
  simp [insurance_query_guardrail, hg, h1]

/-- Evaluation of run_pipeline when the Cost Estimator ends the run early. -/
theorem run_pipeline_stop_cost (b : AgentBehaviour) (raw : RawClaimData)
    (hg : b.verdict.is_insurance_related = true) (h1 : b.image_hands_off = true)
    (h2 : b.cost_hands_off = false) :
    run_pipeline b raw =
      ([.guardrail_checked, .agent_invoked .image_analysis_agent, .vision_tool_called,
        .agent_invoked .cost_estimation_agent],
       .completed (.estimated_cost b.cost)) := by
  unfold run_pipeline
  simp [insurance_query_guardrail, hg, h1, h2]

/-- Evaluation of run_pipeline when the Repair Shop Finder ends the run
early. -/
theorem run_pipeline_stop_shop (b : AgentBehaviour) (raw : RawClaimData)
    (hg : b.verdict.is_insurance_related = true) (h1 : b.image_hands_off = true)
    (h2 : b.cost_hands_off = true) (h3 : b.shop_hands_off = false) :
    run_pipeline b raw =
      ([.guardrail_checked, .agent_invoked .image_analysis_agent, .vision_tool_called,
        .agent_invoked .cost_estimation_agent, .agent_invoked .repair_shop_agent,
        .web_search_called],
       .completed (.shops_output b.shops)) := by
  unfold run_pipeline
  simp [insurance_query_guardrail, hg, h1, h2, h3]

/-- Evaluation of run_pipeline on an uninterrupted in-domain run. -/
theorem run_pipeline_full (b : AgentBehaviour) (raw : RawClaimData)
    (hg : b.verdict.is_insurance_related = true) (h1 : b.image_hands_off = true)
    (h2 : b.cost_hands_off = true) (h3 : b.shop_hands_off = true) :
    run_pipeline b raw =
      ([.guardrail_checked, .agent_invoked .image_analysis_agent, .vision_tool_called,
        .agent_invoked .cost_estimation_agent, .agent_invoked .repair_shop_agent,
        .web_search_called, .merge_executed],
       .completed (.report (merge_report raw b.damage b.cost b.shops))) := by
  unfold run_pipeline
  simp [insurance_query_guardrail, hg, h1, h2, h3, merge_if_complete]

/-! ## Claim theorems -/

/-- Claim C2: the guardrail tripwire equals the negation of
is_insurance_related for every verdict; for every request judged not
insurance related the run halts rejected, the trace holds only the
guardrail check, no specialist agent, vision tool or web search call
occurs, and the driver errors, so no document generation follows. -/
theorem guardrail_blocks_all_specialists :
    (∀ v : InsuranceGuardrailOutput,
      (insurance_query_guardrail v).tripwire_triggered = !v.is_insurance_related) ∧
    ∀ (b : AgentBehaviour) (raw : RawClaimData) (today : PyDate),
      b.verdict.is_insurance_related = false →
        (insurance_query_guardrail b.verdict).tripwire_triggered = true ∧
        (run_pipeline b raw).2 = .rejected (insurance_query_guardrail b.verdict) ∧
        (run_pipeline b raw).1 = [.guardrail_checked] ∧
        (∀ a, Ev.agent_invoked a ∉ (run_pipeline b raw).1) ∧
        Ev.vision_tool_called ∉ (run_pipeline b raw).1 ∧
        Ev.web_search_called ∉ (run_pipeline b raw).1 ∧
        ∃ e, process_insurance_claim b raw today = .error e := by
  refine ⟨fun v => rfl, ?_⟩
  intro b raw today h
  have hrun := run_pipeline_tripwire b raw h
  refine ⟨by simp [insurance_query_guardrail, h], by rw [hrun], by rw [hrun], ?_, ?_, ?_, ?_⟩
  · intro a; rw [hrun]; simp
  · rw [hrun]; simp
  · rw [hrun]; simp
  · exact ⟨_, by unfold process_insurance_claim; rw [hrun]; rfl⟩

/-- Evaluation witness for guardrail_blocks_all_specialists on a concrete
out-of-domain request. -/
theorem guardrail_blocks_all_specialists_witness :
    ({ sampleBehaviour with
        verdict := { is_insurance_related := false, reasoning := "recipe request" } } :
      AgentBehaviour).verdict.is_insurance_related = false ∧
    (run_pipeline
      { sampleBehaviour with
        verdict := { is_insurance_related := false, reasoning := "recipe request" } }
      sampleRaw).1 = [Ev.guardrail_checked] :=
  ⟨rfl, (guardrail_blocks_all_specialists.2 _ sampleRaw sampleDate rfl).2.2.1⟩

/-- Claim C3: the post-merge fix-up sets a blank (empty or whitespace-only)
report date to the ISO rendering of the current date, leaves a non-blank
report date and every other field of the report unchanged, and every
successful driver result is exactly the fix-up applied to the orchestrator
report with the current date. -/
theorem report_date_default_fill (today_iso : String) (r : InsuranceReport) :
    (report_date_blank r.claim.report_date = true →
      (fix_report_date today_iso r).claim.report_date = today_iso) ∧
    (report_date_blank r.claim.report_date = false →
      fix_report_date today_iso r = r) ∧
    ((fix_report_date today_iso r).claim_number = r.claim_number ∧
     (fix_report_date today_iso r).customer = r.customer ∧
     (fix_report_date today_iso r).shops = r.shops ∧
     (fix_report_date today_iso r).claim.assigned_adjuster = r.claim.assigned_adjuster ∧
     (fix_report_date today_iso r).claim.other_driver_insurance_company =
       r.claim.other_driver_insurance_company ∧
     (fix_report_date today_iso r).claim.other_driver_policy_number =
       r.claim.other_driver_policy_number ∧
     (fix_report_date today_iso r).claim.cross_streets_of_accident =
       r.claim.cross_streets_of_accident ∧
     (fix_report_date today_iso r).claim.date_of_incident = r.claim.date_of_incident ∧
     (fix_report_date today_iso r).claim.time_of_incident = r.claim.time_of_incident ∧
     (fix_report_date today_iso r).claim.number_of_vehicles_involved =
       r.claim.number_of_vehicles_involved ∧
     (fix_report_date today_iso r).claim.customer_initial_report =
       r.claim.customer_initial_report ∧
     (fix_report_date today_iso r).claim.law_enforcement_agency =
       r.claim.law_enforcement_agency ∧
     (fix_report_date today_iso r).claim.law_enforcement_report_id =
       r.claim.law_enforcement_report_id ∧
     (fix_report_date today_iso r).claim.damage_description =
       r.claim.damage_description ∧
     (fix_report_date today_iso r).claim.estimated_cost = r.claim.estimated_cost ∧
     (fix_report_date today_iso r).claim.damaged_parts_list =
       r.claim.damaged_parts_list) ∧
    (∀ (b : AgentBehaviour) (raw : RawClaimData) (today : PyDate)
        (rep : InsuranceReport),
      process_insurance_claim b raw today = .ok rep →
        ∃ r0, require_insurance_report (run_pipeline b raw).2 = .ok r0 ∧
          rep = fix_report_date (date_isoformat today) r0) := by
  refine ⟨?_, ?_, ?_, ?_⟩
  · intro h; simp [fix_report_date, h]
  · intro h; simp [fix_report_date, h]
  · by_cases h : report_date_blank r.claim.report_date = true <;>
      simp [fix_report_date, h]
  · intro b raw today rep hp
    unfold process_insurance_claim at hp
    cases hreq : require_insurance_report (run_pipeline b raw).2 with
    | ok r0 =>
      rw [hreq] at hp
      simp only [Except.ok.injEq] at hp
      exact ⟨r0, rfl, hp.symm⟩
    | error e => rw [hreq] at hp; cases hp

/-- Evaluation witness for report_date_default_fill on a concrete report
with a blank report date. -/
theorem report_date_default_fill_witness :
    report_date_blank
      ((merge_report sampleRaw sampleDamage sampleCost sampleShops).claim.report_date) = true ∧
    (fix_report_date "2025-04-21"
      (merge_report sampleRaw sampleDamage sampleCost sampleShops)).claim.report_date =
      "2025-04-21" :=
  ⟨by decide, (report_date_default_fill "2025-04-21" _).1 (by decide)⟩

/-- Claim C4: the driver returns a value only when the final output of the
orchestrated run is a genuine InsuranceReport; a rejected run, a failed
merge, or a completed run with any other final-output shape makes the
driver error, and every successful result comes from an InsuranceReport
final output with only the report-date fix-up applied. -/
theorem driver_requires_insurance_report (b : AgentBehaviour)
    (raw : RawClaimData) (today : PyDate) :
    (∀ f : FinalOutput, (run_pipeline b raw).2 = .completed f →
      (∀ r, f ≠ .report r) →
      ∃ e, process_insurance_claim b raw today = .error e) ∧
    (∀ g, (run_pipeline b raw).2 = .rejected g →
      ∃ e, process_insurance_claim b raw today = .error e) ∧
    (∀ e0, (run_pipeline b raw).2 = .merge_failed e0 →
      ∃ e, process_insurance_claim b raw today = .error e) ∧
    (∀ rep, process_insurance_claim b raw today = .ok rep →
      ∃ r0, (run_pipeline b raw).2 = .completed (.report r0) ∧
        rep = fix_report_date (date_isoformat today) r0) := by
  have hpic : process_insurance_claim b raw today =
      (match require_insurance_report (run_pipeline b raw).2 with
       | .ok report => .ok (fix_report_date (date_isoformat today) report)
       | .error e => (.error e : Except String InsuranceReport)) := rfl
  generalize ho : (run_pipeline b raw).2 = o at hpic ⊢
  cases o with
  | rejected g0 =>
    refine ⟨?_, ?_, ?_, ?_⟩
    · intro f hf _; exact absurd hf (by simp)
    · intro g _; exact ⟨_, by rw [hpic]; rfl⟩
    · intro e0 he; exact absurd he (by simp)
    · intro rep hrep; rw [hpic] at hrep; simp [require_insurance_report] at hrep
  | merge_failed e1 =>
    refine ⟨?_, ?_, ?_, ?_⟩
    · intro f hf _; exact absurd hf (by simp)
    · intro g hg; exact absurd hg (by simp)
    · intro e0 _; exact ⟨_, by rw [hpic]; rfl⟩
    · intro rep hrep; rw [hpic] at hrep; simp [require_insurance_report] at hrep
  | completed f0 =>
    cases f0 with
    | report r0 =>
      refine ⟨?_, ?_, ?_, ?_⟩
      · intro f1 hf1 hne
        simp only [RunOutcome.completed.injEq] at hf1
        exact absurd rfl (hf1 ▸ hne r0)
      · intro g hg; exact absurd hg (by simp)
      · intro e0 he; exact absurd he (by simp)
      · intro rep hrep
        rw [hpic] at hrep
        simp only [require_insurance_report, Except.ok.injEq] at hrep
        exact ⟨r0, rfl, hrep.symm⟩
    | damage_info d =>
      refine ⟨?_, ?_, ?_, ?_⟩
      · intro f1 _ _; exact ⟨_, by rw [hpic]; rfl⟩
      · intro g hg; exact absurd hg (by simp)
      · intro e0 he; exact absurd he (by simp)
      · intro rep hrep; rw [hpic] at hrep; simp [require_insurance_report] at hrep
    | estimated_cost c =>
      refine ⟨?_, ?_, ?_, ?_⟩
      · intro f1 _ _; exact ⟨_, by rw [hpic]; rfl⟩
      · intro g hg; exact absurd hg (by simp)
      · intro e0 he; exact absurd he (by simp)
      · intro rep hrep; rw [hpic] at hrep; simp [require_insurance_report] at hrep
    | shops_output s =>
      refine ⟨?_, ?_, ?_, ?_⟩
      · intro f1 _ _; exact ⟨_, by rw [hpic]; rfl⟩
      · intro g hg; exact absurd hg (by simp)
      · intro e0 he; exact absurd he (by simp)
      · intro rep hrep; rw [hpic] at hrep; simp [require_insurance_report] at hrep

/-- Evaluation witness for driver_requires_insurance_report on a concrete
run that stops at the Repair Shop Finder without a final hand-off. -/
theorem driver_requires_insurance_report_witness :
    (run_pipeline { sampleBehaviour with shop_hands_off := false } sampleRaw).2 =
      RunOutcome.completed (.shops_output sampleShops) ∧
    ∃ e, process_insurance_claim { sampleBehaviour with shop_hands_off := false }
      sampleRaw sampleDate = .error e :=
  ⟨by decide,
   (driver_requires_insurance_report _ sampleRaw sampleDate).1
     (.shops_output sampleShops) (by decide) (fun r h => FinalOutput.noConfusion h)⟩

/-- Claim C1: the MERGE step yields an InsuranceReport only from a state
holding all three specialist outputs together with the raw claim data, and
only as their merge; with any output missing the merge guard fails with a
MissingDependency error; whenever the merge event occurs in a run trace the
outcome is the full merge of the three produced outputs with the raw claim
data; and an interrupted hand-off chain never reaches the merge and makes
the whole run error rather than return a report. -/
theorem merge_requires_all_specialist_outputs :
    (∀ (raw : RawClaimData) (st : PipelineState) (r : InsuranceReport),
      merge_if_complete raw st = .ok r →
        ∃ d c s, st.damage = some d ∧ st.cost = some c ∧ st.shops = some s ∧
          r = merge_report raw d c s) ∧
    (∀ (raw : RawClaimData) (st : PipelineState),
      (st.damage = none ∨ st.cost = none ∨ st.shops = none) →
        merge_if_complete raw st =
          .error "MissingDependency: merge requires all three specialist outputs") ∧
    (∀ (b : AgentBehaviour) (raw : RawClaimData),
      Ev.merge_executed ∈ (run_pipeline b raw).1 →
        (run_pipeline b raw).2 =
          .completed (.report (merge_report raw b.damage b.cost b.shops))) ∧
    (∀ (b : AgentBehaviour) (raw : RawClaimData) (today : PyDate),
      (b.image_hands_off = false ∨ b.cost_hands_off = false ∨
        b.shop_hands_off = false) →
        Ev.merge_executed ∉ (run_pipeline b raw).1 ∧
        ∃ e, process_insurance_claim b raw today = .error e) := by
  refine ⟨?_, ?_, ?_, ?_⟩
  · intro raw st r hok
    obtain ⟨od, oc, os⟩ := st
    cases od <;> cases oc <;> cases os <;>
      simp [merge_if_complete] at hok
    exact ⟨_, _, _, rfl, rfl, rfl, hok.symm⟩
  · intro raw st hmiss
    obtain ⟨od, oc, os⟩ := st
    cases od <;> cases oc <;> cases os <;> first | rfl | simp at hmiss
  · intro b raw hmem
    cases hv : b.verdict.is_insurance_related with
    | false =>
      rw [run_pipeline_tripwire b raw hv] at hmem
      simp at hmem
    | true =>
      cases h1 : b.image_hands_off with
      | false =>
        rw [run_pipeline_stop_image b raw hv h1] at hmem
        simp at hmem
      | true =>
        cases h2 : b.cost_hands_off with
        | false =>
          rw [run_pipeline_stop_cost b raw hv h1 h2] at hmem
          simp at hmem
        | true =>
          cases h3 : b.shop_hands_off with
          | false =>
            rw [run_pipeline_stop_shop b raw hv h1 h2 h3] at hmem
            simp at hmem
          | true =>
            rw [run_pipeline_full b raw hv h1 h2 h3]
  · intro b raw today hint
    cases hv : b.verdict.is_insurance_related with
    | false =>
      rw [run_pipeline_tripwire b raw hv]
      exact ⟨by simp,
        ⟨_, by unfold process_insurance_claim; rw [run_pipeline_tripwire b raw hv]; rfl⟩⟩
    | true =>
      cases h1 : b.image_hands_off with
      | false =>
        rw [run_pipeline_stop_image b raw hv h1]
        exact ⟨by simp,
          ⟨_, by unfold process_insurance_claim
                 rw [run_pipeline_stop_image b raw hv h1]; rfl⟩⟩
      | true =>
        cases h2 : b.cost_hands_off with
        | false =>
          rw [run_pipeline_stop_cost b raw hv h1 h2]
          exact ⟨by simp,
            ⟨_, by unfold process_insurance_claim
                   rw [run_pipeline_stop_cost b raw hv h1 h2]; rfl⟩⟩
        | true =>
          cases h3 : b.shop_hands_off with
          | false =>
            rw [run_pipeline_stop_shop b raw hv h1 h2 h3]
            exact ⟨by simp,
              ⟨_, by unfold process_insurance_claim
                     rw [run_pipeline_stop_shop b raw hv h1 h2 h3]; rfl⟩⟩
          | true =>
            rcases hint with h | h | h
            · rw [h1] at h; cases h
            · rw [h2] at h; cases h
            · rw [h3] at h; cases h

/-- Evaluation witness for merge_requires_all_specialist_outputs: the merge
guard fails on a state holding only the damage output, and a run whose Cost
Estimator never hands off errors at the driver. -/
theorem merge_requires_all_specialist_outputs_witness :
    merge_if_complete sampleRaw { damage := some sampleDamage } =
      .error "MissingDependency: merge requires all three specialist outputs" ∧
    ∃ e, process_insurance_claim { sampleBehaviour with cost_hands_off := false }
      sampleRaw sampleDate = .error e :=
  ⟨merge_requires_all_specialist_outputs.2.1 sampleRaw
      { damage := some sampleDamage } (Or.inr (Or.inl rfl)),
   (merge_requires_all_specialist_outputs.2.2.2
      { sampleBehaviour with cost_hands_off := false } sampleRaw sampleDate
      (Or.inr (Or.inl rfl))).2⟩

/-- Claim C6: each agent declares exactly one hand-off target, in the order
orchestrator, Image Analyst, Cost Estimator, Repair Shop Finder and back to
the orchestrator for the merge; every run trace is an initial segment of the
canonical linear trace, never repeats an event, and once the merge has
executed the trace is the complete canonical trace, so no agent is
re-entered after the MERGE step; the only branch is the guardrail
rejection. -/
theorem handoff_chain_strictly_linear :
    (handoffs .claim_orchestrator = [.image_analysis_agent] ∧
     handoffs .image_analysis_agent = [.cost_estimation_agent] ∧
     handoffs .cost_estimation_agent = [.repair_shop_agent] ∧
     handoffs .repair_shop_agent = [.claim_orchestrator]) ∧
    (∀ a, (handoffs a).length = 1) ∧
    (∀ (b : AgentBehaviour) (raw : RawClaimData),
      (∃ n, (run_pipeline b raw).1 = canonical_trace.take n) ∧
      (run_pipeline b raw).1.Nodup ∧
      (Ev.merge_executed ∈ (run_pipeline b raw).1 →
        (run_pipeline b raw).1 = canonical_trace)) := by
  refine ⟨⟨rfl, rfl, rfl, rfl⟩, fun a => by cases a <;> rfl, ?_⟩
  intro b raw
  cases hv : b.verdict.is_insurance_related with
  | false =>
    rw [run_pipeline_tripwire b raw hv]
    exact ⟨⟨1, rfl⟩, by dsimp only; decide, by dsimp only; decide⟩
  | true =>
    cases h1 : b.image_hands_off with
    | false =>
      rw [run_pipeline_stop_image b raw hv h1]
      exact ⟨⟨3, rfl⟩, by dsimp only; decide, by dsimp only; decide⟩
    | true =>
      cases h2 : b.cost_hands_off with
      | false =>
        rw [run_pipeline_stop_cost b raw hv h1 h2]
        exact ⟨⟨4, rfl⟩, by dsimp only; decide, by dsimp only; decide⟩
      | true =>
        cases h3 : b.shop_hands_off with
        | false =>
          rw [run_pipeline_stop_shop b raw hv h1 h2 h3]
          exact ⟨⟨6, rfl⟩, by dsimp only; decide, by dsimp only; decide⟩
        | true =>
          rw [run_pipeline_full b raw hv h1 h2 h3]
          exact ⟨⟨7, rfl⟩, by dsimp only; decide, by dsimp only; decide⟩

/-- Evaluation witness for handoff_chain_strictly_linear on a concrete
uninterrupted run: the merge executed and the trace is the full canonical
linear trace. -/
theorem handoff_chain_strictly_linear_witness :
    Ev.merge_executed ∈ (run_pipeline sampleBehaviour sampleRaw).1 ∧
    (run_pipeline sampleBehaviour sampleRaw).1 = canonical_trace :=
  ⟨by decide,
   (handoff_chain_strictly_linear.2.2 sampleBehaviour sampleRaw).2.2 (by decide)⟩

/-- Claim C5: a vision-service response missing damaged_parts_list, or
otherwise failing the DamageInfo shape (exactly a string
damage_description and a damaged_parts_list array of strings, with no
additional properties), is rejected by the strict schema declared by
analyze_vehicle_damage_gpt4v: the call errors and never yields a
DamageInfo value, so no empty list is substituted and nothing malformed is
passed downstream; a response without the damaged_parts_list key always
fails the shape, a DamageInfo is only ever produced from a conforming
response, and the issued request declares exactly the two properties
required with additionalProperties false under strict mode. -/
theorem vision_schema_rejects_missing_parts_list
    (image_urls : List String) (year make model : String) (j : Json)
    (hbad : conforms_damage_schema j = false) :
    (∃ e, (analyze_vehicle_damage_gpt4v image_urls year make model j).2 = .error e) ∧
    (∀ d, (analyze_vehicle_damage_gpt4v image_urls year make model j).2 ≠ .ok d) ∧
    (∀ j2 : Json, jsonHasKey j2 "damaged_parts_list" = false →
      conforms_damage_schema j2 = false) ∧
    (∀ (j2 : Json) (d : DamageInfo),
      (analyze_vehicle_damage_gpt4v image_urls year make model j2).2 = .ok d →
        conforms_damage_schema j2 = true) ∧
    (analyze_vehicle_damage_gpt4v image_urls year make model j).1.schema_required =
      ["damage_description", "damaged_parts_list"] ∧
    (analyze_vehicle_damage_gpt4v image_urls year make model j).1.additionalProperties =
      false ∧
    (analyze_vehicle_damage_gpt4v image_urls year make model j).1.strict = true := by
  have hana : ∀ j2 : Json,
      (analyze_vehicle_damage_gpt4v image_urls year make model j2).2 =
        parse_damage_info j2 := fun j2 => rfl
  have herr : ∃ e, parse_damage_info j = .error e := by
    cases hp : parse_damage_info j with
    | ok d =>
      have hconf := (parse_damage_info_ok_iff j).mp ⟨d, hp⟩
      simp [hbad] at hconf
    | error e => exact ⟨e, rfl⟩
  obtain ⟨e, he⟩ := herr
  refine ⟨⟨e, by rw [hana, he]⟩, ?_, ?_, ?_, rfl, rfl, rfl⟩
  · intro d hd
    rw [hana, he] at hd
    cases hd
  · intro j2 hkey
    cases j2 with
    | obj fields =>
      have hnone : lookupField fields "damaged_parts_list" = none := by
        simpa [jsonHasKey, Option.isSome_iff_exists] using hkey
      simp [conforms_damage_schema, hnone]
    | null => rfl
    | str s => rfl
    | arr es => rfl
  · intro j2 d hok
    rw [hana] at hok
    exact (parse_damage_info_ok_iff j2).mp ⟨d, hok⟩

/-- Evaluation witness for vision_schema_rejects_missing_parts_list on two
concrete responses: one missing the damaged_parts_list key, and one with
the key present but an additional severity property. -/
theorem vision_schema_rejects_missing_parts_list_witness :
    conforms_damage_schema
      (Json.obj [("damage_description", Json.str "scratched door")]) = false ∧
    (∃ e, (analyze_vehicle_damage_gpt4v ["https://example.com/img1.png"]
        "2023" "Honda" "Civic"
        (Json.obj [("damage_description", Json.str "scratched door")])).2 =
          .error e) ∧
    conforms_damage_schema
      (Json.obj [("damage_description", Json.str "dented door"),
        ("damaged_parts_list", Json.arr [Json.str "door"]),
        ("severity", Json.str "high")]) = false ∧
    (∃ e, (analyze_vehicle_damage_gpt4v ["https://example.com/img1.png"]
        "2023" "Honda" "Civic"
        (Json.obj [("damage_description", Json.str "dented door"),
          ("damaged_parts_list", Json.arr [Json.str "door"]),
          ("severity", Json.str "high")])).2 = .error e) :=
  ⟨rfl,
   (vision_schema_rejects_missing_parts_list ["https://example.com/img1.png"]
      "2023" "Honda" "Civic"
      (Json.obj [("damage_description", Json.str "scratched door")]) rfl).1,
   rfl,
   (vision_schema_rejects_missing_parts_list ["https://example.com/img1.png"]
      "2023" "Honda" "Civic"
      (Json.obj [("damage_description", Json.str "dented door"),
        ("damaged_parts_list", Json.arr [Json.str "door"]),
        ("severity", Json.str "high")]) rfl).1⟩

/-- Claim C7: for all image URLs and vehicle fields, the prompt constructed
by analyze_vehicle_damage_gpt4v explicitly requests consideration of
non-visible damage, containing both the request to include hidden damage
not visible in the photos and the examples of the camera in the bumper and
the batteries the vehicle uses. -/
theorem vision_prompt_requests_hidden_damage
    (image_urls : List String) (year make model : String) :
    (∀ service_output,
      (analyze_vehicle_damage_gpt4v image_urls year make model service_output).1 =
        vision_request image_urls year make model) ∧
    (∃ pre post, (vision_request image_urls year make model).prompt =
      pre ++ ("hidden damage that you might not be able to see in the photos" ++ post)) ∧
    (∃ pre post, (vision_request image_urls year make model).prompt =
      pre ++ ("camera in the bumper or the batteries the vehicle uses" ++ post)) := by
  have h1 : vision_prompt_text year make model =
      "Think deeply. Based on these images, create a list of parts that you estimate will need repaired or replaced, as well as a detailed description of the damage to the vehicle. Make sure to think about and include hidden damage that you might not be able to see in the photos, for example camera in the bumper or the batteries the vehicle uses. The vehicle is a "
        ++ (year ++ (" " ++ (make ++ (" " ++ (model
        ++ ". Return a valid JSON object that includes the following:\n - \"damage_description\": a concise summary describing the overall damage to the vehicle.\n - \"damaged_parts_list\": a list of parts that need repair or replacement.\nDo NOT include any cost estimates, extra explanations, or any text outside of this JSON object. Follow proper JSON formatting."))))) := by
    unfold vision_prompt_text
    simp [String.append_assoc]
  refine ⟨fun service_output => rfl, ?_, ?_⟩
  · refine ⟨"Think deeply. Based on these images, create a list of parts that you estimate will need repaired or replaced, as well as a detailed description of the damage to the vehicle. Make sure to think about and include ",
      ", for example camera in the bumper or the batteries the vehicle uses. The vehicle is a "
        ++ (year ++ (" " ++ (make ++ (" " ++ (model
        ++ ". Return a valid JSON object that includes the following:\n - \"damage_description\": a concise summary describing the overall damage to the vehicle.\n - \"damaged_parts_list\": a list of parts that need repair or replacement.\nDo NOT include any cost estimates, extra explanations, or any text outside of this JSON object. Follow proper JSON formatting."))))),
      ?_⟩
    show vision_prompt_text year make model = _
    rw [h1,
      show ("Think deeply. Based on these images, create a list of parts that you estimate will need repaired or replaced, as well as a detailed description of the damage to the vehicle. Make sure to think about and include hidden damage that you might not be able to see in the photos, for example camera in the bumper or the batteries the vehicle uses. The vehicle is a " : String) =
      "Think deeply. Based on these images, create a list of parts that you estimate will need repaired or replaced, as well as a detailed description of the damage to the vehicle. Make sure to think about and include "
        ++ ("hidden damage that you might not be able to see in the photos"
        ++ ", for example camera in the bumper or the batteries the vehicle uses. The vehicle is a ") from by decide,
      String.append_assoc, String.append_assoc]
  · refine ⟨"Think deeply. Based on these images, create a list of parts that you estimate will need repaired or replaced, as well as a detailed description of the damage to the vehicle. Make sure to think about and include hidden damage that you might not be able to see in the photos, for example ",
      ". The vehicle is a "
        ++ (year ++ (" " ++ (make ++ (" " ++ (model
        ++ ". Return a valid JSON object that includes the following:\n - \"damage_description\": a concise summary describing the overall damage to the vehicle.\n - \"damaged_parts_list\": a list of parts that need repair or replacement.\nDo NOT include any cost estimates, extra explanations, or any text outside of this JSON object. Follow proper JSON formatting."))))),
      ?_⟩
    show vision_prompt_text year make model = _
    rw [h1,
      show ("Think deeply. Based on these images, create a list of parts that you estimate will need repaired or replaced, as well as a detailed description of the damage to the vehicle. Make sure to think about and include hidden damage that you might not be able to see in the photos, for example camera in the bumper or the batteries the vehicle uses. The vehicle is a " : String) =
      "Think deeply. Based on these images, create a list of parts that you estimate will need repaired or replaced, as well as a detailed description of the damage to the vehicle. Make sure to think about and include hidden damage that you might not be able to see in the photos, for example "
        ++ ("camera in the bumper or the batteries the vehicle uses"
        ++ ". The vehicle is a ") from by decide,
      String.append_assoc, String.append_assoc]

/-- Claim C8: for a final report whose damaged parts list is present, the
Doc Gen submission succeeds and carries the serialized report with the
parts list flattened to the comma-and-space join of its elements, together
with the template file reference, the api input source, the destination
folder, the pdf output flag and the generated file name. -/
theorem docgen_flattens_damaged_parts
    (template_file_id claim_folder_id : String) (r : InsuranceReport)
    (l : List String) (h : r.claim.damaged_parts_list = some l) :
    ∃ req, submit_docgen_batch template_file_id claim_folder_id r = .ok req ∧
      jsonLookupPath req.user_input "claim" "damaged_parts_list" =
        some (.str (String.intercalate ", " l)) ∧
      req.file_id = template_file_id ∧
      req.input_source = "api" ∧
      req.destination_folder_id = claim_folder_id ∧
      req.output_type = "pdf" ∧
      req.generated_file_name = "Pre‑Inspection‑Report‑" ++ r.claim_number := by
  simp +decide [submit_docgen_batch, flatten_damaged_parts,
    InsuranceReport.model_dump, Claim.model_dump, Customer.model_dump,
    Shop.model_dump, Shops.model_dump, dumpOptStr, dumpOptShop, h,
    lookupField, setField, jsonLookupPath, Option.getD, pyJoin_map_str]

/-- Evaluation witness for docgen_flattens_damaged_parts on a concrete
merged report. -/
theorem docgen_flattens_damaged_parts_witness :
    (merge_report sampleRaw sampleDamage sampleCost sampleShops).claim.damaged_parts_list =
      some ["rear bumper", "backup camera"] ∧
    ∃ req, submit_docgen_batch "1001" "2002"
        (merge_report sampleRaw sampleDamage sampleCost sampleShops) = .ok req ∧
      jsonLookupPath req.user_input "claim" "damaged_parts_list" =
        some (.str (String.intercalate ", " ["rear bumper", "backup camera"])) ∧
      req.file_id = "1001" ∧
      req.input_source = "api" ∧
      req.destination_folder_id = "2002" ∧
      req.output_type = "pdf" ∧
      req.generated_file_name = "Pre‑Inspection‑Report‑" ++
        (merge_report sampleRaw sampleDamage sampleCost sampleShops).claim_number :=
  ⟨by decide,
   docgen_flattens_damaged_parts "1001" "2002" _ ["rear bumper", "backup camera"]
     (by decide)⟩

/-- Claim C9: for a JSON object carrying all sixteen customer_* keys with
string values, parse_customer_info_file returns the Customer whose every
field equals the corresponding customer_* value, paired with the raw input
dict unchanged; and the pipeline never alters the customer record: the
merge copies it from the raw claim data and the report-date fix-up leaves
it untouched. -/
theorem parse_customer_info_correct
    (fields : List (String × Json))
    (v1 v2 v3 v4 v5 v6 v7 v8 v9 v10 v11 v12 v13 v14 v15 v16 : String)
    (h1 : lookupField fields "customer_first_name" = some (.str v1))
    (h2 : lookupField fields "customer_last_name" = some (.str v2))
    (h3 : lookupField fields "customer_street_address" = some (.str v3))
    (h4 : lookupField fields "customer_city" = some (.str v4))
    (h5 : lookupField fields "customer_state" = some (.str v5))
    (h6 : lookupField fields "customer_zip_code" = some (.str v6))
    (h7 : lookupField fields "customer_phone_number" = some (.str v7))
    (h8 : lookupField fields "customer_email" = some (.str v8))
    (h9 : lookupField fields "customer_car_year" = some (.str v9))
    (h10 : lookupField fields "customer_car_make" = some (.str v10))
    (h11 : lookupField fields "customer_car_model" = some (.str v11))
    (h12 : lookupField fields "customer_vin" = some (.str v12))
    (h13 : lookupField fields "customer_license_plate" = some (.str v13))
    (h14 : lookupField fields "customer_car_mileage" = some (.str v14))
    (h15 : lookupField fields "customer_car_color" = some (.str v15))
    (h16 : lookupField fields "customer_policy_number" = some (.str v16)) :
    parse_customer_info_file (.obj fields) =
      .ok ({ first_name := v1, last_name := v2, street_address := v3,
             city := v4, state := v5, zip_code := v6, phone_number := v7,
             email := v8, car_year := v9, car_make := v10, car_model := v11,
             vin := v12, license_plate := v13, car_mileage := v14,
             car_color := v15, policy_number := v16 }, .obj fields) ∧
    (∀ (raw : RawClaimData) (d : DamageInfo) (c : EstimatedCost) (s : Shops),
      (merge_report raw d c s).customer = raw.customer) ∧
    (∀ (today_iso : String) (r : InsuranceReport),
      (fix_report_date today_iso r).customer = r.customer) := by
  refine ⟨?_, fun raw d c s => rfl, fun today_iso r => ?_⟩
  · simp only [parse_customer_info_file, getStrField,
      h1, h2, h3, h4, h5, h6, h7, h8, h9, h10, h11, h12, h13, h14, h15, h16]
  · unfold fix_report_date
    split <;> rfl

/-- Evaluation witness for parse_customer_info_correct on the concrete
customer info file content. -/
theorem parse_customer_info_correct_witness :
    parse_customer_info_file (.obj sampleCustomerFields) =
      .ok ({ first_name := "Pat", last_name := "Doe",
             street_address := "123 Main St", city := "Springfield",
             state := "IL", zip_code := "62704", phone_number := "555-0101",
             email := "pat@example.com", car_year := "2023",
             car_make := "Honda", car_model := "Civic",
             vin := "1HGFE2F52PH000001", license_plate := "ABC123",
             car_mileage := "12000", car_color := "blue",
             policy_number := "P-000123" }, .obj sampleCustomerFields) :=
  (parse_customer_info_correct sampleCustomerFields
    "Pat" "Doe" "123 Main St" "Springfield" "IL" "62704" "555-0101"
    "pat@example.com" "2023" "Honda" "Civic" "1HGFE2F52PH000001" "ABC123"
    "12000" "blue" "P-000123"
    rfl rfl rfl rfl rfl rfl rfl rfl rfl rfl rfl rfl rfl rfl rfl rfl).1

/-- Claim C10: when the final report damaged parts list is None, the
serialized claim still carries the damaged_parts_list key with value null,
so the dict get default of an empty list is never used, and the join of the
null value is a TypeError that fails the flattening and stops the Doc Gen
submission before any batch request is built. -/
theorem docgen_join_fails_on_none_parts_list
    (template_file_id claim_folder_id : String) (r : InsuranceReport)
    (h : r.claim.damaged_parts_list = none) :
    jsonLookupPath (InsuranceReport.model_dump r) "claim" "damaged_parts_list" =
      some Json.null ∧
    jsonHasKey (Claim.model_dump r.claim) "damaged_parts_list" = true ∧
    pyJoin ", " Json.null = .error "TypeError: can only join an iterable" ∧
    flatten_damaged_parts (InsuranceReport.model_dump r) =
      .error "TypeError: can only join an iterable" ∧
    submit_docgen_batch template_file_id claim_folder_id r =
      .error "TypeError: can only join an iterable" := by
  refine ⟨?_, ?_, rfl, ?_, ?_⟩ <;>
    simp +decide [submit_docgen_batch, flatten_damaged_parts,
      InsuranceReport.model_dump, Claim.model_dump, Customer.model_dump,
      Shop.model_dump, Shops.model_dump, dumpOptStr, dumpOptShop, h,
      lookupField, setField, jsonLookupPath, jsonHasKey, Option.getD, pyJoin]

/-- Evaluation witness for docgen_join_fails_on_none_parts_list on a
concrete report whose damaged parts list is None. -/
theorem docgen_join_fails_on_none_parts_list_witness :
    sampleReportNoParts.claim.damaged_parts_list = none ∧
    submit_docgen_batch "1001" "2002" sampleReportNoParts =
      .error "TypeError: can only join an iterable" :=
  ⟨rfl,
   (docgen_join_fails_on_none_parts_list "1001" "2002" sampleReportNoParts
      rfl).2.2.2.2⟩

end InsuranceDemo
